import Mathlib

/-!
Verification development for the Google-Meet-Bot streaming-transcription gateway.

The definitions below are a shallow embedding of the Python source:
- `src/google_meet_bot/stream.py` (ConnectionManager, the websocket endpoint
  message handlers, and the HTTP session-management handlers), and
- `src/google_meet_bot/yandex_speechkit_v3_service.py` (the Yandex SpeechKit v3
  gRPC adapter).

Python dictionaries (which preserve insertion order) are modelled as
association lists with the update / lookup / pop operations `dinsert`,
`dget`, `dpop` below.  Byte strings are lists of byte values.  Wall-clock
timestamps are opaque naturals passed in as a `now` parameter.
-/

/-- Bytes (Python `bytes`) as a list of byte values. -/
abbrev Bytes := List Nat

/-- Lookup in an insertion-ordered dictionary (first binding of the key). -/
def dget {β : Type} : List (String × β) → String → Option β
  | [], _ => none
  | (k', v) :: rest, k => if k' = k then some v else dget rest k

/-- Python `d[k] = v`: update the existing binding in place, else append. -/
def dinsert {β : Type} : List (String × β) → String → β → List (String × β)
  | [], k, v => [(k, v)]
  | (k', v') :: rest, k, v =>
    if k' = k then (k', v) :: rest else (k', v') :: dinsert rest k v

/-- Python `d.pop(k, None)`: drop the binding of `k` if present. -/
def dpop {β : Type} : List (String × β) → String → List (String × β)
  | [], _ => []
  | (k', v) :: rest, k => if k' = k then rest else (k', v) :: dpop rest k

theorem dget_dinsert_self {β : Type} (l : List (String × β)) (k : String) (v : β) :
    dget (dinsert l k v) k = some v := by
  induction l with
  | nil => simp [dinsert, dget]
  | cons p rest ih =>
    by_cases h : p.1 = k
    · simp [dinsert, dget, h]
    · simp [dinsert, dget, h, ih]

theorem dget_dinsert_ne {β : Type} (l : List (String × β)) (k k' : String) (v : β)
    (h : k ≠ k') : dget (dinsert l k v) k' = dget l k' := by
  induction l with
  | nil => simp [dinsert, dget, h]
  | cons p rest ih =>
    by_cases hp : p.1 = k
    · simp [dinsert, dget, hp, h]
    · by_cases hp' : p.1 = k'
      · simp [dinsert, dget, hp, hp', Ne.symm h]
      · simp [dinsert, dget, hp, hp', ih]

theorem dget_eq_none_of_not_mem {β : Type} (l : List (String × β)) (k : String)
    (h : k ∉ l.map Prod.fst) : dget l k = none := by
  induction l with
  | nil => rfl
  | cons p rest ih =>
    simp only [List.map_cons, List.mem_cons, not_or] at h
    have hp : p.1 ≠ k := fun he => h.1 he.symm
    simp [dget, hp, ih h.2]

theorem dget_dpop_self {β : Type} (l : List (String × β)) (k : String)
    (hnd : (l.map Prod.fst).Nodup) : dget (dpop l k) k = none := by
  induction l with
  | nil => rfl
  | cons p rest ih =>
    simp only [List.map_cons, List.nodup_cons] at hnd
    by_cases h : p.1 = k
    · subst h
      simp only [dpop, if_pos rfl]
      exact dget_eq_none_of_not_mem rest p.1 hnd.1
    · simp [dpop, dget, h, ih hnd.2]

theorem dget_dpop_ne {β : Type} (l : List (String × β)) (k k' : String)
    (h : k ≠ k') : dget (dpop l k) k' = dget l k' := by
  induction l with
  | nil => simp [dpop, dget]
  | cons p rest ih =>
    by_cases hp : p.1 = k
    · subst hp
      simp [dpop, dget, fun hc : p.1 = k' => h hc]
    · by_cases hp' : p.1 = k'
      · simp [dpop, dget, hp, hp', Ne.symm h]
      · simp [dpop, dget, hp, hp', ih]

/-- Appending a fresh key: `dinsert` on an absent key appends the binding. -/
theorem dinsert_fresh {β : Type} (l : List (String × β)) (k : String) (v : β)
    (h : k ∉ l.map Prod.fst) : dinsert l k v = l ++ [(k, v)] := by
  induction l with
  | nil => simp [dinsert]
  | cons p rest ih =>
    simp only [List.map_cons, List.mem_cons, not_or] at h
    have : p.1 ≠ k := fun he => h.1 he.symm
    simp [dinsert, this, ih h.2]

/-! ### Injectivity of the decimal printer

`ConnectionManager.connect` builds client identifiers as `"c" ++ Nat.repr n`.
The uniqueness claims need that distinct indices give distinct identifiers,
so we prove `Nat.repr` injective by relating `Nat.toDigitsCore` to
`Nat.digits`. -/

theorem toDigitsCore_eq_digits (fuel n : Nat) (acc : List Char)
    (hn : 0 < n) (hf : n ≤ fuel) :
    Nat.toDigitsCore 10 fuel n acc =
      ((Nat.digits 10 n).map Nat.digitChar).reverse ++ acc := by
  induction fuel generalizing n acc with
  | zero => omega
  | succ fuel ih =>
    have hd : Nat.digits 10 n = n % 10 :: Nat.digits 10 (n / 10) :=
      Nat.digits_def' (by norm_num) hn
    by_cases hq : n / 10 = 0
    · simp [Nat.toDigitsCore, hq, hd]
    · have hpos : 0 < n / 10 := Nat.pos_of_ne_zero hq
      have hle : n / 10 ≤ fuel := by
        have := Nat.div_lt_self hn (by norm_num : 1 < 10)
        omega
      simp only [Nat.toDigitsCore, if_neg hq]
      rw [ih (n / 10) _ hpos hle, hd]
      simp

theorem digitChar_inj_lt (a b : Nat) (ha : a < 10) (hb : b < 10)
    (h : Nat.digitChar a = Nat.digitChar b) : a = b := by
  have key : ∀ x : Fin 10, ∀ y : Fin 10,
      Nat.digitChar x.1 = Nat.digitChar y.1 → x = y := by decide
  have := key ⟨a, ha⟩ ⟨b, hb⟩ h
  exact congrArg Fin.val this

theorem map_digitChar_inj (l1 l2 : List Nat)
    (h1 : ∀ x ∈ l1, x < 10) (h2 : ∀ x ∈ l2, x < 10)
    (h : l1.map Nat.digitChar = l2.map Nat.digitChar) : l1 = l2 := by
  induction l1 generalizing l2 with
  | nil => cases l2 <;> simp_all
  | cons a t ih =>
    cases l2 with
    | nil => simp_all
    | cons b t2 =>
      simp only [List.map_cons, List.cons.injEq] at h
      have ha := h1 a (by simp)
      have hb := h2 b (by simp)
      have := digitChar_inj_lt a b ha hb h.1
      subst this
      exact congrArg _ (ih t2 (fun x hx => h1 x (by simp [hx]))
        (fun x hx => h2 x (by simp [hx])) h.2)

theorem asString_inj (l1 l2 : List Char) (h : l1.asString = l2.asString) :
    l1 = l2 := by
  simpa [List.asString] using congrArg String.data h

theorem natRepr_digits (n : Nat) (hn : 0 < n) :
    Nat.repr n = (((Nat.digits 10 n).map Nat.digitChar).reverse).asString := by
  unfold Nat.repr Nat.toDigits
  rw [toDigitsCore_eq_digits (n + 1) n [] hn (by omega)]
  simp

theorem natRepr_inj (m n : Nat) (h : Nat.repr m = Nat.repr n) : m = n := by
  rcases Nat.eq_zero_or_pos m with hm | hm <;> rcases Nat.eq_zero_or_pos n with hn | hn
  · omega
  · exfalso
    subst hm
    rw [natRepr_digits n hn] at h
    have hrev := asString_inj _ _ h
    have : [Nat.digitChar 0] = ((Nat.digits 10 n).map Nat.digitChar).reverse := by
      simpa [Nat.repr, Nat.toDigits, Nat.toDigitsCore] using hrev
    have hdig : (Nat.digits 10 n).map Nat.digitChar = [Nat.digitChar 0] := by
      have := congrArg List.reverse this
      simpa using this.symm
    have hds : Nat.digits 10 n = [0] := by
      apply map_digitChar_inj
      · exact fun x hx => Nat.digits_lt_base (by norm_num) hx
      · intro x hx; simp at hx; omega
      · simpa using hdig
    have := Nat.ofDigits_digits 10 n
    rw [hds] at this
    simp [Nat.ofDigits] at this
    omega
  · exfalso
    subst hn
    rw [natRepr_digits m hm] at h
    have hrev := asString_inj _ _ h
    have : ((Nat.digits 10 m).map Nat.digitChar).reverse = [Nat.digitChar 0] := by
      simpa [Nat.repr, Nat.toDigits, Nat.toDigitsCore] using hrev
    have hdig : (Nat.digits 10 m).map Nat.digitChar = [Nat.digitChar 0] := by
      have := congrArg List.reverse this
      simpa using this
    have hds : Nat.digits 10 m = [0] := by
      apply map_digitChar_inj
      · exact fun x hx => Nat.digits_lt_base (by norm_num) hx
      · intro x hx; simp at hx; omega
      · simpa using hdig
    have := Nat.ofDigits_digits 10 m
    rw [hds] at this
    simp [Nat.ofDigits] at this
    omega
  · rw [natRepr_digits m hm, natRepr_digits n hn] at h
    have hrev := asString_inj _ _ h
    have hmap : (Nat.digits 10 m).map Nat.digitChar = (Nat.digits 10 n).map Nat.digitChar :=
      List.reverse_injective hrev
    have hds : Nat.digits 10 m = Nat.digits 10 n :=
      map_digitChar_inj _ _ (fun x hx => Nat.digits_lt_base (by norm_num) hx)
        (fun x hx => Nat.digits_lt_base (by norm_num) hx) hmap
    have h1 := Nat.ofDigits_digits 10 m
    have h2 := Nat.ofDigits_digits 10 n
    rw [hds] at h1
    omega

/-- Client identifiers `"c" ++ Nat.repr n` (the `f"c"` f-string in
`ConnectionManager.connect`) are injective in the index. -/
def mkClientId (n : Nat) : String := "c" ++ Nat.repr n

theorem mkClientId_inj (m n : Nat) (h : mkClientId m = mkClientId n) : m = n := by
  apply natRepr_inj
  have hdata := congrArg String.data h
  simp only [mkClientId, String.data_append] at hdata
  have hl : (Nat.repr m).data = (Nat.repr n).data := List.append_cancel_left hdata
  cases hm : Nat.repr m with
  | mk dm =>
    cases hn : Nat.repr n with
    | mk dn =>
      rw [hm, hn] at hl
      simp only at hl
      rw [hl]

/-! ### Data model (stream.py)

`ResultRecord` models the result dictionaries accumulated in
`ConnectionManager.session_results`; `SessionMeta` models the entries of
`ConnectionManager.transcription_sessions` created by `connect` (the
`created_at` / `status` / `chunks_processed` keys used by the endpoint
handlers).  `StreamChunk` models `models.base.StreamChunk` as constructed in
the websocket handler. -/

structure ResultRecord where
  chunk_id : String
  timestamp : Nat
  text : String
  is_final : Bool
  confidence : Option Int
  speaker_id : Option String
  success : Bool
deriving DecidableEq

structure SessionMeta where
  created_at : Nat
  status : String
  chunks_processed : Nat
deriving DecidableEq

structure StreamChunk where
  chunk_id : String
  audio_data : Bytes
  timestamp : Nat
  is_final : Bool
deriving DecidableEq

/-- Modelled from the spec: `StreamTranscriptionService`
(`services/stream_service.py` is imported by stream.py but absent from the
sources).  Per spec section 6 it exposes `start_session`, `process_audio_chunk`
(forwarding a chunk to the session upstream stream) and
`end_session(session_id) -> bool`; per spec sections 4.2(8) and 8 the upstream
shutdown of a session runs exactly once and a second `end_session` call is a
documented no-op.  `active_sessions` holds the sessions whose upstream stream
is open, `shutdown_log` records every upstream shutdown performed, and
`forwarded` records every chunk handed to the upstream stream. -/
structure StreamService where
  active_sessions : List String
  shutdown_log : List String
  forwarded : List (String × StreamChunk)
deriving DecidableEq

/-- Modelled from the spec: `end_session` shuts the upstream stream down when
the session is still active and is a no-op otherwise, returning whether a
session was actually ended. -/
def StreamService.end_session (svc : StreamService) (sid : String) :
    StreamService × Bool :=
  if sid ∈ svc.active_sessions then
    ({ svc with active_sessions := svc.active_sessions.filter (fun s => s ≠ sid),
                shutdown_log := svc.shutdown_log ++ [sid] }, true)
  else (svc, false)

/-- Modelled from the spec: `process_audio_chunk` forwards the chunk to the
session upstream stream. -/
def StreamService.process_audio_chunk (svc : StreamService) (chunk : StreamChunk)
    (sid : String) : StreamService :=
  { svc with forwarded := svc.forwarded ++ [(sid, chunk)] }

/-- State of `ConnectionManager` (stream.py lines 20-180).  Websocket handles
are opaque naturals. -/
structure ConnectionManager where
  active_connections : List (String × List (String × Nat))
  client_channels : List (String × List (String × Int))
  chunk_channel_map : List (String × List (String × Int))
  transcription_sessions : List (String × SessionMeta)
  session_results : List (String × List ResultRecord)
  services : List (String × StreamService)
deriving DecidableEq

def emptyManager : ConnectionManager :=
  { active_connections := [], client_channels := [], chunk_channel_map := [],
    transcription_sessions := [], session_results := [], services := [] }

/-- The `while ch in used: ch += 1` loop of `connect`, with explicit fuel.
`used.length + 1` candidates always suffice to leave the loop. -/
def smallestFreeFrom (used : List Int) : Int → Nat → Int
  | ch, 0 => ch
  | ch, fuel + 1 => if ch ∈ used then smallestFreeFrom used (ch + 1) fuel else ch

def smallestFree (used : List Int) : Int :=
  smallestFreeFrom used 1 (used.length + 1)

/-- Model of `ConnectionManager.connect` (stream.py lines 37-70): initialize the
session containers if absent, generate `client_id = "c" + str(len+1)`, assign
the requested channel or the smallest unused positive integer, and register
the client.  Returns the new state and the client id. -/
def ConnectionManager.connect (m : ConnectionManager) (ws : Nat) (session_id : String)
    (channel : Option Int) (now : Nat) : ConnectionManager × String :=
  let m :=
    if (dget m.active_connections session_id).isSome then m
    else { m with active_connections := dinsert m.active_connections session_id [],
                  client_channels := dinsert m.client_channels session_id [],
                  chunk_channel_map := dinsert m.chunk_channel_map session_id [] }
  let m :=
    if (dget m.transcription_sessions session_id).isSome then m
    else { m with transcription_sessions := dinsert m.transcription_sessions session_id
                    { created_at := now, status := "connected", chunks_processed := 0 } }
  let m :=
    if (dget m.session_results session_id).isSome then m
    else { m with session_results := dinsert m.session_results session_id [] }
  let clients := (dget m.active_connections session_id).getD []
  let client_id := mkClientId (clients.length + 1)
  let chans := (dget m.client_channels session_id).getD []
  let ch : Int :=
    match channel with
    | some c => c
    | none => smallestFree (chans.map Prod.snd)
  ({ m with
      active_connections := dinsert m.active_connections session_id (dinsert clients client_id ws),
      client_channels := dinsert m.client_channels session_id (dinsert chans client_id ch) },
    client_id)

/-- Model of `ConnectionManager.disconnect` (stream.py lines 72-93).  With a client id:
drop that client from the connection and channel maps and, if the session has
no clients left, drop its (now empty) containers — the chunk map is kept.
Without a client id: drop the whole connection and channel containers. -/
def ConnectionManager.disconnect (m : ConnectionManager) (session_id : String)
    (client_id : Option String) : ConnectionManager :=
  match client_id with
  | some cid =>
    let m :=
      match dget m.active_connections session_id with
      | some clients =>
        { m with active_connections := dinsert m.active_connections session_id (dpop clients cid) }
      | none => m
    let m :=
      match dget m.client_channels session_id with
      | some chans =>
        { m with client_channels := dinsert m.client_channels session_id (dpop chans cid) }
      | none => m
    match dget m.active_connections session_id with
    | some clients =>
      if clients.isEmpty then
        { m with active_connections := dpop m.active_connections session_id,
                 client_channels := dpop m.client_channels session_id }
      else m
    | none => m
  | none =>
    { m with active_connections := dpop m.active_connections session_id,
             client_channels := dpop m.client_channels session_id }

/-- Model of `add_transcription_result` (stream.py lines 95-99). -/
def ConnectionManager.add_transcription_result (m : ConnectionManager)
    (session_id : String) (result : ResultRecord) : ConnectionManager :=
  let log := ((dget m.session_results session_id).getD []) ++ [result]
  { m with session_results := dinsert m.session_results session_id log }

/-- Model of `get_session_results` (stream.py lines 101-108): `none` when the session
id is unknown, otherwise the (optionally final-only-filtered) result log. -/
def ConnectionManager.get_session_results (m : ConnectionManager)
    (session_id : String) (includePartials : Bool) : Option (List ResultRecord) :=
  match dget m.session_results session_id with
  | none => none
  | some results =>
    some (if includePartials then results else results.filter (fun r => r.is_final))

/-- Model of `get_session_transcript` (stream.py lines 110-121) for
`format_type="text"` — the only format any claim mentions; the `"json"` branch
serializes the same final-only records and is not modelled.  Python returns
`None` when `get_session_results` gives `None` **or** an empty list, then
space-joins the texts of records whose `text` value is truthy (non-empty). -/
def ConnectionManager.get_session_transcript_text (m : ConnectionManager)
    (session_id : String) : Option String :=
  match m.get_session_results session_id false with
  | none => none
  | some results =>
    if results.isEmpty then none
    else some (String.intercalate " "
      ((results.filter (fun r => !r.text.isEmpty)).map (fun r => r.text)))

/-- Model of `get_client_channel` (stream.py lines 162-163). -/
def ConnectionManager.get_client_channel (m : ConnectionManager)
    (session_id client_id : String) : Option Int :=
  dget ((dget m.client_channels session_id).getD []) client_id

/-- Model of `map_chunk_channel` (stream.py lines 165-168). -/
def ConnectionManager.map_chunk_channel (m : ConnectionManager)
    (session_id chunk_id : String) (channel : Int) : ConnectionManager :=
  let inner := dinsert ((dget m.chunk_channel_map session_id).getD []) chunk_id channel
  { m with chunk_channel_map := dinsert m.chunk_channel_map session_id inner }

/-- Model of `resolve_channel_for_chunk` (stream.py lines 170-171). -/
def ConnectionManager.resolve_channel_for_chunk (m : ConnectionManager)
    (session_id chunk_id : String) : Option Int :=
  dget ((dget m.chunk_channel_map session_id).getD []) chunk_id

/-- Model of `has_active_clients` (stream.py lines 173-174): Python truthiness of
`active_connections.get(session_id)`. -/
def ConnectionManager.has_active_clients (m : ConnectionManager)
    (session_id : String) : Bool :=
  !((dget m.active_connections session_id).getD []).isEmpty

/-- Model of `get_service` (stream.py lines 176-177). -/
def ConnectionManager.get_service (m : ConnectionManager) (session_id : String) :
    Option StreamService :=
  dget m.services session_id

/-- Model of `set_service` (stream.py lines 179-180). -/
def ConnectionManager.set_service (m : ConnectionManager) (session_id : String)
    (svc : StreamService) : ConnectionManager :=
  { m with services := dinsert m.services session_id svc }

/-! ### The channel-assignment and client-id invariants of `connect` -/

/-- The channel values `[1, 2, …, k]`. -/
def chanList : Nat → List Int
  | 0 => []
  | k + 1 => chanList k ++ [(k : Int) + 1]

/-- The client ids `c1 … ck` generated by `connect`. -/
def sessionIds : Nat → List String
  | 0 => []
  | k + 1 => sessionIds k ++ [mkClientId (k + 1)]

/-- Client-channel registry contents after `k` requestless connects. -/
def idChanPairs : Nat → List (String × Int)
  | 0 => []
  | k + 1 => idChanPairs k ++ [(mkClientId (k + 1), (k : Int) + 1)]

/-- Connection registry contents contributed by connects `k+1, k+2, …`. -/
def idWsPairs (k : Nat) : List Nat → List (String × Nat)
  | [] => []
  | ws :: rest => (mkClientId (k + 1), ws) :: idWsPairs (k + 1) rest

theorem chanList_length (k : Nat) : (chanList k).length = k := by
  induction k with
  | zero => rfl
  | succ k ih => simp [chanList, ih]

theorem mem_chanList (k : Nat) (x : Int) : x ∈ chanList k ↔ 1 ≤ x ∧ x ≤ (k : Int) := by
  induction k with
  | zero => simp [chanList]; omega
  | succ k ih =>
    simp only [chanList, List.mem_append, List.mem_singleton, ih]
    push_cast
    omega

theorem chanList_nodup (k : Nat) : (chanList k).Nodup := by
  induction k with
  | zero => simp [chanList]
  | succ k ih =>
    refine List.Nodup.append ih (List.nodup_singleton _) ?_
    intro a ha hb
    simp only [List.mem_singleton] at hb
    subst hb
    have := (mem_chanList k _).mp ha
    omega

theorem idChanPairs_map_snd (k : Nat) :
    (idChanPairs k).map Prod.snd = chanList k := by
  induction k with
  | zero => rfl
  | succ k ih => simp [idChanPairs, chanList, ih]

theorem idChanPairs_map_fst (k : Nat) :
    (idChanPairs k).map Prod.fst = sessionIds k := by
  induction k with
  | zero => rfl
  | succ k ih => simp [idChanPairs, sessionIds, ih]

theorem sessionIds_length (k : Nat) : (sessionIds k).length = k := by
  induction k with
  | zero => rfl
  | succ k ih => simp [sessionIds, ih]

theorem mem_sessionIds (k : Nat) (s : String) :
    s ∈ sessionIds k ↔ ∃ i, 1 ≤ i ∧ i ≤ k ∧ s = mkClientId i := by
  induction k with
  | zero =>
    simp only [sessionIds, List.not_mem_nil, false_iff, not_exists]
    intro x h1
    omega
  | succ k ih =>
    simp only [sessionIds, List.mem_append, List.mem_singleton, ih]
    constructor
    · rintro (⟨i, h1, h2, rfl⟩ | rfl)
      · exact ⟨i, h1, by omega, rfl⟩
      · exact ⟨k + 1, by omega, by omega, rfl⟩
    · rintro ⟨i, h1, h2, rfl⟩
      by_cases hik : i ≤ k
      · exact Or.inl ⟨i, h1, hik, rfl⟩
      · have : i = k + 1 := by omega
        subst this
        exact Or.inr rfl

theorem mkClientId_not_mem_sessionIds (k : Nat) :
    mkClientId (k + 1) ∉ sessionIds k := by
  intro h
  rcases (mem_sessionIds k _).mp h with ⟨i, h1, h2, he⟩
  have := mkClientId_inj _ _ he
  omega

theorem sessionIds_nodup (k : Nat) : (sessionIds k).Nodup := by
  induction k with
  | zero => simp [sessionIds]
  | succ k ih =>
    refine List.Nodup.append ih (List.nodup_singleton _) ?_
    intro a ha hb
    simp only [List.mem_singleton] at hb
    subst hb
    exact mkClientId_not_mem_sessionIds k ha

theorem smallestFreeFrom_chanList (k : Nat) :
    ∀ (fuel : Nat) (c : Int), 1 ≤ c → c ≤ (k : Int) + 1 →
      (k : Int) + 2 - c ≤ (fuel : Int) →
      smallestFreeFrom (chanList k) c fuel = (k : Int) + 1 := by
  intro fuel
  induction fuel with
  | zero =>
    intro c h1 h2 h3
    exfalso
    simp only [Nat.cast_zero] at h3
    omega
  | succ fuel ih =>
    intro c h1 h2 h3
    by_cases hc : c ≤ (k : Int)
    · have hmem : c ∈ chanList k := (mem_chanList k c).mpr ⟨h1, hc⟩
      simp only [smallestFreeFrom, if_pos hmem]
      refine ih (c + 1) (by omega) (by omega) ?_
      push_cast at h3 ⊢
      omega
    · have hce : c = (k : Int) + 1 := by omega
      subst hce
      have hmem : (k : Int) + 1 ∉ chanList k := fun hm => by
        have := (mem_chanList k _).mp hm
        omega
      simp [smallestFreeFrom, hmem]

theorem smallestFree_chanList (k : Nat) :
    smallestFree (chanList k) = (k : Int) + 1 := by
  unfold smallestFree
  rw [chanList_length]
  refine smallestFreeFrom_chanList k (k + 1) 1 (by omega) (by omega) ?_
  push_cast
  omega

theorem dinsert_dinsert {β : Type} (l : List (String × β)) (k : String) (v w : β) :
    dinsert (dinsert l k v) k w = dinsert l k w := by
  induction l with
  | nil => simp [dinsert]
  | cons p rest ih =>
    by_cases h : p.1 = k
    · simp [dinsert, h]
    · simp [dinsert, h, ih]

/-- The session is unknown to every registry container. -/
def sessionFresh (m : ConnectionManager) (sid : String) : Prop :=
  dget m.active_connections sid = none ∧ dget m.client_channels sid = none ∧
    dget m.transcription_sessions sid = none ∧ dget m.session_results sid = none

theorem smallestFree_nil : smallestFree [] = 1 := rfl

/-- First requestless connect of a fresh session: containers are created, the
client becomes `c1` on channel `1`. -/
theorem connect_fresh (m : ConnectionManager) (ws : Nat) (sid : String) (now : Nat)
    (h : sessionFresh m sid) :
    m.connect ws sid none now =
      ({ m with
          active_connections := dinsert m.active_connections sid [(mkClientId 1, ws)],
          client_channels := dinsert m.client_channels sid [(mkClientId 1, 1)],
          chunk_channel_map := dinsert m.chunk_channel_map sid [],
          transcription_sessions := dinsert m.transcription_sessions sid
            { created_at := now, status := "connected", chunks_processed := 0 },
          session_results := dinsert m.session_results sid [] },
        mkClientId 1) := by
  obtain ⟨hA, hC, hT, hR⟩ := h
  simp [ConnectionManager.connect, hA, hC, hT, hR, dget_dinsert_self,
    dinsert_dinsert, smallestFree_nil, dinsert]

/-- Requestless connect onto a session that already has clients `c1 … ck` on
channels `1 … k`: the new client is `ck+1` on channel `k+1`, appended without
touching any existing registration. -/
theorem connect_step (m : ConnectionManager) (ws : Nat) (sid : String) (now : Nat)
    (k : Nat) (cl : List (String × Nat))
    (hA : dget m.active_connections sid = some cl)
    (hfst : cl.map Prod.fst = sessionIds k)
    (hC : dget m.client_channels sid = some (idChanPairs k))
    (hT : (dget m.transcription_sessions sid).isSome = true)
    (hR : (dget m.session_results sid).isSome = true) :
    m.connect ws sid none now =
      ({ m with
          active_connections := dinsert m.active_connections sid
            (cl ++ [(mkClientId (k + 1), ws)]),
          client_channels := dinsert m.client_channels sid (idChanPairs (k + 1)) },
        mkClientId (k + 1)) := by
  have hlen : cl.length = k := by
    have := congrArg List.length hfst
    simpa [sessionIds_length] using this
  have hfresh : mkClientId (k + 1) ∉ cl.map Prod.fst := by
    rw [hfst]
    exact mkClientId_not_mem_sessionIds k
  have hfreshC : mkClientId (k + 1) ∉ (idChanPairs k).map Prod.fst := by
    rw [idChanPairs_map_fst]
    exact mkClientId_not_mem_sessionIds k
  simp only [ConnectionManager.connect, hA, hC, hT, hR, Option.isSome_some, if_true,
    Option.getD_some, hlen, idChanPairs_map_snd, smallestFree_chanList,
    dinsert_fresh cl _ _ hfresh, dinsert_fresh (idChanPairs k) _ _ hfreshC]
  rfl

/-- Fold of requestless connects (one per websocket handle in the list). -/
def connectSeq (sid : String) (now : Nat) : ConnectionManager → List Nat → ConnectionManager
  | m, [] => m
  | m, ws :: rest => connectSeq sid now (m.connect ws sid none now).1 rest

/-- The client ids assigned along `connectSeq`, in order. -/
def connectSeqIds (sid : String) (now : Nat) : ConnectionManager → List Nat → List String
  | _, [] => []
  | m, ws :: rest =>
    (m.connect ws sid none now).2 :: connectSeqIds sid now (m.connect ws sid none now).1 rest

theorem connectSeq_inv (sid : String) (now : Nat) (wss : List Nat) :
    ∀ (m : ConnectionManager) (k : Nat) (cl : List (String × Nat)),
      dget m.active_connections sid = some cl →
      cl.map Prod.fst = sessionIds k →
      dget m.client_channels sid = some (idChanPairs k) →
      (dget m.transcription_sessions sid).isSome = true →
      (dget m.session_results sid).isSome = true →
      dget (connectSeq sid now m wss).active_connections sid
          = some (cl ++ idWsPairs k wss) ∧
        dget (connectSeq sid now m wss).client_channels sid
          = some (idChanPairs (k + wss.length)) ∧
        (dget (connectSeq sid now m wss).transcription_sessions sid).isSome = true ∧
        (dget (connectSeq sid now m wss).session_results sid).isSome = true ∧
        connectSeqIds sid now m wss = (idWsPairs k wss).map Prod.fst := by
  induction wss with
  | nil =>
    intro m k cl hA hfst hC hT hR
    simp [connectSeq, connectSeqIds, idWsPairs, hA, hC, hT, hR]
  | cons ws rest ih =>
    intro m k cl hA hfst hC hT hR
    have hstep := connect_step m ws sid now k cl hA hfst hC hT hR
    have hrec := ih (m.connect ws sid none now).1 (k + 1) (cl ++ [(mkClientId (k + 1), ws)])
      (by rw [hstep]; exact dget_dinsert_self _ _ _)
      (by simp [hfst, sessionIds])
      (by rw [hstep]; exact dget_dinsert_self _ _ _)
      (by rw [hstep]; simpa using hT)
      (by rw [hstep]; simpa using hR)
    refine ⟨?_, ?_, ?_, ?_, ?_⟩
    · have := hrec.1
      simpa [connectSeq, idWsPairs, List.append_assoc] using this
    · have := hrec.2.1
      simpa [connectSeq, Nat.add_assoc, Nat.add_comm, Nat.add_left_comm] using this
    · simpa [connectSeq] using hrec.2.2.1
    · simpa [connectSeq] using hrec.2.2.2.1
    · have hids := hrec.2.2.2.2
      simp only [connectSeqIds, idWsPairs, List.map_cons]
      rw [hstep] at hids ⊢
      simpa using hids

/-! ### Python string primitives used by the handlers

These are defined over `List Char` with structural recursion so that concrete
evaluations reduce in the kernel. -/

/-- Python `str.strip()` (ASCII whitespace suffices for the strings involved). -/
def pyStrip (s : String) : String :=
  ((s.data.dropWhile Char.isWhitespace).reverse.dropWhile Char.isWhitespace).reverse.asString

/-- Python `s.startswith(p)`. -/
def pyStartsWith (s p : String) : Bool :=
  p.data.isPrefixOf s.data

/-- Characters before the first `-`, i.e. Python `s.split("-", 1)[0]`. -/
def takeUntilDash : List Char → List Char
  | [] => []
  | c :: rest => if c = '-' then [] else c :: takeUntilDash rest

/-- One decimal digit. -/
def decDigit? (c : Char) : Option Nat :=
  if '0' ≤ c ∧ c ≤ '9' then some (c.toNat - 48) else none

def decDigitsVal : List Char → Nat → Option Nat
  | [], acc => some acc
  | c :: rest, acc =>
    match decDigit? c with
    | some d => decDigitsVal rest (acc * 10 + d)
    | none => none

/-- Python `int(s)` on the digit strings produced here (no sign handling is
needed: the parsed text is the decimal the code itself embedded; a leading
`-` from a negative channel is accepted as well). Returns `none` where
`int()` raises `ValueError`. -/
def pyInt (s : String) : Option Int :=
  match s.data with
  | [] => none
  | '-' :: rest =>
    if rest.isEmpty then none else (decDigitsVal rest 0).map (fun n => -(n : Int))
  | l => (decDigitsVal l 0).map (fun n => (n : Int))

/-- Truthiness of an optional string (Python `if not x` on `None` or `str`). -/
def pyTruthyStr : Option String → Bool
  | none => false
  | some s => !s.isEmpty

/-! ### Outbound messages and provider events (stream.py endpoint) -/

/-- The JSON messages the websocket endpoint sends to clients. -/
inductive OutMessage where
  | connection_established (session_id : String) (provider : String) (language : String)
      (enable_diarization : Bool) (channel : Option Int)
  | transcription_result (chunk_id : String) (text : String) (is_final : Bool)
      (confidence : Option Int) (speaker_id : Option String) (timestamp : Nat)
  | session_ended (session_id : String) (status : String) (chunks_processed : Nat)
  | pong (timestamp : Nat)
  | error (message : String)
deriving DecidableEq

/-- A result dictionary as passed around between the Yandex adapter, the
stream service callback and `result_callback` (`Dict[str, Any]` in Python;
only the keys the handlers read are modelled, each optional where the code
uses `.get`). -/
structure EventRecord where
  rtype : String
  text : Option String
  error : Option String
  details : Option String
  chunk_id : Option String
  is_final : Bool
  confidence : Option Int
  speaker_id : Option String
  timestamp : Option Nat
deriving DecidableEq

/-- The `ch<channel>-<id>` prefix parse inside `result_callback`
(stream.py lines 250-257): applied when the chunk id starts with `ch` and
contains a dash; `int()` failures yield `None`. -/
def parseChannelFromChunkId (chunk_id : String) : Option Int :=
  if pyStartsWith chunk_id "ch" && chunk_id.data.contains '-' then
    pyInt ((takeUntilDash chunk_id.data).drop 2).asString
  else none

/-- Model of `result_callback` (stream.py lines 235-284): drop results whose stripped
text is empty; otherwise resolve a speaker id (provider value if truthy, else
the chunk-id prefix parse, else the chunk-channel map), append a
`ResultRecord` to the session log, and broadcast a `transcription_result`
message to every connected client of the session.  Returns the new manager
state and the (client id, message) sends. -/
def ConnectionManager.result_callback (m : ConnectionManager) (sid : String)
    (result : EventRecord) (now : Nat) :
    ConnectionManager × List (String × OutMessage) :=
  let text := pyStrip (result.text.getD "")
  if text.isEmpty then (m, [])
  else
    let timestamp := result.timestamp.getD now
    let speaker_id : Option String :=
      if pyTruthyStr result.speaker_id then result.speaker_id
      else
        let chunk_id_local := result.chunk_id.getD ""
        let ch : Option Int :=
          match parseChannelFromChunkId chunk_id_local with
          | some c => some c
          | none => m.resolve_channel_for_chunk sid chunk_id_local
        match ch with
        | some c => some ("channel_" ++ Int.repr c)
        | none => result.speaker_id
    let record : ResultRecord :=
      { chunk_id := result.chunk_id.getD "", timestamp := timestamp, text := text,
        is_final := result.is_final, confidence := result.confidence,
        speaker_id := speaker_id, success := true }
    let m' := m.add_transcription_result sid record
    (m', ((dget m'.active_connections sid).getD []).map
      (fun p => (p.1, OutMessage.transcription_result (result.chunk_id.getD "") text
        result.is_final result.confidence speaker_id timestamp)))

/-- The error dictionary `recognize_stream` yields when the backend RPC
raises (`yandex_speechkit_v3_service.py` lines 192-199): only `type`,
`error`, `details`, `provider`, `mode` keys — in particular no `text`. -/
def grpcErrorEvent (codeName details : String) : EventRecord :=
  { rtype := "error", text := none, error := some ("gRPC error: " ++ codeName),
    details := some details, chunk_id := none, is_final := false,
    confidence := none, speaker_id := none, timestamp := none }

/-- Session status as recorded in the registry metadata. -/
def sessionStatus (m : ConnectionManager) (sid : String) : Option String :=
  (dget m.transcription_sessions sid).map (fun meta => meta.status)

/-! ### Registry operation language (for the chunk-map stability claim) -/

/-- The `ConnectionManager` mutations reachable from the endpoint handlers. -/
inductive MgrOp where
  | connect (ws : Nat) (sid : String) (channel : Option Int) (now : Nat)
  | disconnect (sid : String) (cid : Option String)
  | mapChunk (sid chunk : String) (channel : Int)
  | addResult (sid : String) (r : ResultRecord)
deriving DecidableEq

def applyOp (m : ConnectionManager) : MgrOp → ConnectionManager
  | .connect ws sid channel now => (m.connect ws sid channel now).1
  | .disconnect sid cid => m.disconnect sid cid
  | .mapChunk sid chunk channel => m.map_chunk_channel sid chunk channel
  | .addResult sid r => m.add_transcription_result sid r

def applyOps (m : ConnectionManager) : List MgrOp → ConnectionManager
  | [] => m
  | op :: rest => applyOps (applyOp m op) rest

/-- Predicate `safeOps m ops sid chunk c` checks, along the run, that (a) any further
`mapChunk` write to this (session, chunk id) key carries the same channel
`c` (in the endpoint the written channel always equals the channel embedded
in the `ch<k>-` prefix of the key, so remaps are value-preserving), and that
(b) no `connect` for this session happens while the session has no
registered client container (such a connect reinitializes the session and
wipes its chunk map). -/
def safeOps (m : ConnectionManager) (ops : List MgrOp) (sid chunk : String) (c : Int) : Bool :=
  match ops with
  | [] => true
  | op :: rest =>
    let ok :=
      match op with
      | .connect _ sid' _ _ => sid' != sid || (dget m.active_connections sid).isSome
      | .mapChunk sid' chunk' c' => sid' != sid || chunk' != chunk || c' == c
      | _ => true
    ok && safeOps (applyOp m op) rest sid chunk c

theorem disconnect_chunk_map (m : ConnectionManager) (sid : String) (cid : Option String) :
    (m.disconnect sid cid).chunk_channel_map = m.chunk_channel_map := by
  unfold ConnectionManager.disconnect
  cases cid with
  | none => rfl
  | some c =>
    dsimp only
    split <;> split <;> split <;> (try split) <;> rfl

theorem disconnect_services (m : ConnectionManager) (sid : String) (cid : Option String) :
    (m.disconnect sid cid).services = m.services := by
  unfold ConnectionManager.disconnect
  cases cid with
  | none => rfl
  | some c =>
    dsimp only
    split <;> split <;> split <;> (try split) <;> rfl

theorem disconnect_transcription_sessions (m : ConnectionManager) (sid : String)
    (cid : Option String) :
    (m.disconnect sid cid).transcription_sessions = m.transcription_sessions := by
  unfold ConnectionManager.disconnect
  cases cid with
  | none => rfl
  | some c =>
    dsimp only
    split <;> split <;> split <;> (try split) <;> rfl

theorem disconnect_session_results (m : ConnectionManager) (sid : String)
    (cid : Option String) :
    (m.disconnect sid cid).session_results = m.session_results := by
  unfold ConnectionManager.disconnect
  cases cid with
  | none => rfl
  | some c =>
    dsimp only
    split <;> split <;> split <;> (try split) <;> rfl

theorem connect_chunk_map (m : ConnectionManager) (ws : Nat) (sid' : String)
    (channel : Option Int) (now : Nat) :
    ((m.connect ws sid' channel now).1).chunk_channel_map =
      if (dget m.active_connections sid').isSome then m.chunk_channel_map
      else dinsert m.chunk_channel_map sid' [] := by
  simp only [ConnectionManager.connect]
  split_ifs <;> rfl

theorem resolve_eq_of_chunk_map_eq (m₁ m₂ : ConnectionManager) (sid chunk : String)
    (h : m₁.chunk_channel_map = m₂.chunk_channel_map) :
    m₁.resolve_channel_for_chunk sid chunk = m₂.resolve_channel_for_chunk sid chunk := by
  unfold ConnectionManager.resolve_channel_for_chunk
  rw [h]

theorem resolve_map_chunk_channel_safe (m : ConnectionManager) (sid chunk : String)
    (c : Int) (sid' chunk' : String) (c' : Int)
    (hres : m.resolve_channel_for_chunk sid chunk = some c)
    (hsafe : sid' ≠ sid ∨ chunk' ≠ chunk ∨ c' = c) :
    (m.map_chunk_channel sid' chunk' c').resolve_channel_for_chunk sid chunk = some c := by
  unfold ConnectionManager.resolve_channel_for_chunk ConnectionManager.map_chunk_channel
  unfold ConnectionManager.resolve_channel_for_chunk at hres
  by_cases hs : sid' = sid
  · subst hs
    simp only [dget_dinsert_self, Option.getD_some]
    by_cases hc : chunk' = chunk
    · subst hc
      rcases hsafe with h | h | h
      · exact absurd rfl h
      · exact absurd rfl h
      · subst h
        exact dget_dinsert_self _ _ _
    · rw [dget_dinsert_ne _ _ _ _ hc]
      exact hres
  · rw [dget_dinsert_ne _ _ _ _ hs]
    exact hres

/-- Claim C2 step fact: any single safe registry operation preserves a
resolved chunk-channel binding. -/
theorem resolve_applyOp_safe (m : ConnectionManager) (op : MgrOp) (sid chunk : String)
    (c : Int)
    (hres : m.resolve_channel_for_chunk sid chunk = some c)
    (hok : (match op with
      | .connect _ sid' _ _ => sid' != sid || (dget m.active_connections sid).isSome
      | .mapChunk sid' chunk' c' => sid' != sid || chunk' != chunk || c' == c
      | _ => true) = true) :
    (applyOp m op).resolve_channel_for_chunk sid chunk = some c := by
  cases op with
  | connect ws sid' channel now =>
    simp only [Bool.or_eq_true, bne_iff_ne, ne_eq] at hok
    unfold ConnectionManager.resolve_channel_for_chunk at hres ⊢
    rw [show (applyOp m (.connect ws sid' channel now)).chunk_channel_map =
        ((m.connect ws sid' channel now).1).chunk_channel_map from rfl,
      connect_chunk_map]
    by_cases hA : (dget m.active_connections sid').isSome = true
    · simp only [hA, if_true]
      exact hres
    · have hs : sid' ≠ sid := by
        rcases hok with h | h
        · exact h
        · intro he
          subst he
          exact hA h
      simp only [hA, if_false, Bool.false_eq_true]
      rw [dget_dinsert_ne _ _ _ _ hs]
      exact hres
  | disconnect sid' cid =>
    show (m.disconnect sid' cid).resolve_channel_for_chunk sid chunk = some c
    rw [resolve_eq_of_chunk_map_eq _ m _ _ (disconnect_chunk_map m sid' cid)]
    exact hres
  | mapChunk sid' chunk' c' =>
    simp only [Bool.or_eq_true, bne_iff_ne, ne_eq, beq_iff_eq] at hok
    refine resolve_map_chunk_channel_safe m sid chunk c sid' chunk' c' hres ?_
    tauto
  | addResult sid' r =>
    exact hres

theorem resolve_applyOps_safe (sid chunk : String) (c : Int) :
    ∀ (ops : List MgrOp) (m : ConnectionManager),
      m.resolve_channel_for_chunk sid chunk = some c →
      safeOps m ops sid chunk c = true →
      (applyOps m ops).resolve_channel_for_chunk sid chunk = some c := by
  intro ops
  induction ops with
  | nil => intro m hres _; exact hres
  | cons op rest ih =>
    intro m hres hsafe
    simp only [safeOps, Bool.and_eq_true] at hsafe
    exact ih (applyOp m op) (resolve_applyOp_safe m op sid chunk c hres hsafe.1) hsafe.2

/-! ### End-session triggers (claim C3) -/

/-- Broadcast of one message to every connected client of the session
(`send_personal_message` without a client id, stream.py lines 123-138). -/
def broadcastList (m : ConnectionManager) (sid : String) (msg : OutMessage) :
    List (String × OutMessage) :=
  ((dget m.active_connections sid).getD []).map (fun p => (p.1, msg))

/-- The `end_session` websocket message handler (stream.py lines 370-385):
call `svc.end_session` on the session service when one exists, then broadcast
the `session_ended` acknowledgement carrying the processed-chunk count. -/
def runEndSessionMsg (m : ConnectionManager) (sid : String) :
    ConnectionManager × List (String × OutMessage) :=
  let m1 :=
    match dget m.services sid with
    | some svc => { m with services := dinsert m.services sid (svc.end_session sid).1 }
    | none => m
  let count := ((dget m1.transcription_sessions sid).map
    (fun meta => meta.chunks_processed)).getD 0
  (m1, broadcastList m1 sid (OutMessage.session_ended sid "completed" count))

/-- The `finally` cleanup of the websocket handler (stream.py lines 421-438):
deregister the client, and if no explicit end-session happened on this
connection and the session has no clients left, end the service session. -/
def runClientCleanup (m : ConnectionManager) (sid cid : String)
    (session_already_ended : Bool) : ConnectionManager :=
  let m1 := m.disconnect sid (some cid)
  if !session_already_ended && !m1.has_active_clients sid then
    match dget m1.services sid with
    | some svc => { m1 with services := dinsert m1.services sid (svc.end_session sid).1 }
    | none => m1
  else m1

/-- The `POST /end_session/{session_id}` management handler (stream.py lines
998-1011): no-op message when no service exists, otherwise end the service
session. -/
def runEndStreamSession (m : ConnectionManager) (sid : String) : ConnectionManager :=
  match dget m.services sid with
  | some svc => { m with services := dinsert m.services sid (svc.end_session sid).1 }
  | none => m

/-- A way the upstream end-session can be triggered for a session. -/
inductive EndTrigger where
  | endSessionMsg
  | clientCleanup (cid : String) (session_already_ended : Bool)
  | managementCall
deriving DecidableEq

def runTrigger (m : ConnectionManager) (sid : String) : EndTrigger → ConnectionManager
  | .endSessionMsg => (runEndSessionMsg m sid).1
  | .clientCleanup cid ae => runClientCleanup m sid cid ae
  | .managementCall => runEndStreamSession m sid

/-- How many times the upstream shutdown has run for the session, as recorded
by its service instance. -/
def shutdownCount (m : ConnectionManager) (sid : String) : Nat :=
  match dget m.services sid with
  | some svc => svc.shutdown_log.count sid
  | none => 0

/-- A trigger that unconditionally reaches `svc.end_session` (a cleanup
trigger fires only when its connection had not already ended the session). -/
def EndTrigger.firing : EndTrigger → Prop
  | .clientCleanup _ ae => ae = false
  | _ => True

/-! ### The audio-chunk message handler (claim C10) -/

/-- An `audio_chunk` websocket message: both the current `audio_data` and the
legacy `audio_bytes` field may be present (hex strings), plus the optional
client chunk id and the finality flag (`message.get("is_final", False)`). -/
structure AudioChunkMsg where
  audio_data : Option String
  audio_bytes : Option String
  chunk_id : Option String
  is_final : Bool
deriving DecidableEq

/-- Python `message.get("audio_data") or message.get("audio_bytes")`: the
first operand is kept only when truthy (a non-empty string), otherwise the
second operand is the result. -/
def pyOrStr : Option String → Option String → Option String
  | some s, b => if s.isEmpty then b else some s
  | none, b => b

/-- One hex digit. -/
def hexDigit? (c : Char) : Option Nat :=
  if '0' ≤ c ∧ c ≤ '9' then some (c.toNat - 48)
  else if 'a' ≤ c ∧ c ≤ 'f' then some (c.toNat - 87)
  else if 'A' ≤ c ∧ c ≤ 'F' then some (c.toNat - 55)
  else none

/-- Python `bytes.fromhex` on a plain hex string (pairs of hex digits;
`none` where `fromhex` raises `ValueError`; the whitespace-between-bytes
tolerance of `fromhex` is not exercised by the claims). -/
def hexPairs : List Char → Option Bytes
  | [] => some []
  | [_] => none
  | c1 :: c2 :: rest =>
    match hexDigit? c1, hexDigit? c2, hexPairs rest with
    | some hi, some lo, some bs => some ((hi * 16 + lo) :: bs)
    | _, _, _ => none

def bytesFromHex (s : String) : Option Bytes :=
  hexPairs s.data

/-- The `audio_chunk` branch of the websocket message loop (stream.py lines
310-368), for a registered client of the session (`client_channel` is the
channel `connect` assigned).  Returns the new manager state and the error
messages sent back to this client (for the exception paths: bad hex, missing
session metadata, missing service).  Chunks handed to the service appear in
the service `forwarded` log; the processed-chunk counter is incremented
exactly in the non-`None` audio branch. -/
def handleAudioChunk (m : ConnectionManager) (sid cid : String) (client_channel : Int)
    (msg : AudioChunkMsg) (now : Nat) :
    ConnectionManager × List (String × OutMessage) :=
  match pyOrStr msg.audio_data msg.audio_bytes with
  | some hex =>
    match bytesFromHex hex with
    | none =>
      (m, [(cid, OutMessage.error "non-hexadecimal number found in fromhex() arg")])
    | some audio =>
      match dget m.transcription_sessions sid with
      | none => (m, [(cid, OutMessage.error "KeyError")])
      | some meta =>
        let generated := sid ++ "_" ++ Nat.repr (meta.chunks_processed + 1)
        let orig :=
          match msg.chunk_id with
          | some s => if s.isEmpty then generated else s
          | none => generated
        let new_chunk_id := "ch" ++ Int.repr client_channel ++ "-" ++ orig
        let m1 := m.map_chunk_channel sid new_chunk_id client_channel
        match dget m1.services sid with
        | none =>
          (m1, [(cid, OutMessage.error "Transcription service is not initialized for this session")])
        | some svc =>
          let chunk : StreamChunk :=
            { chunk_id := new_chunk_id, audio_data := audio, timestamp := now,
              is_final := msg.is_final }
          let svc2 := svc.process_audio_chunk chunk sid
          let m2 := { m1 with services := dinsert m1.services sid svc2 }
          let meta2 := { meta with chunks_processed := meta.chunks_processed + 1 }
          let m3 := { m2 with transcription_sessions := dinsert m2.transcription_sessions sid meta2 }
          (m3, [])
  | none =>
    if msg.is_final then
      let new_chunk_id := "ch" ++ Int.repr client_channel ++ "-final_" ++ sid
      let m1 := m.map_chunk_channel sid new_chunk_id client_channel
      match dget m1.services sid with
      | none =>
        (m1, [(cid, OutMessage.error "Transcription service is not initialized for this session")])
      | some svc =>
        let chunk : StreamChunk :=
          { chunk_id := new_chunk_id, audio_data := [], timestamp := now, is_final := true }
        let svc2 := svc.process_audio_chunk chunk sid
        ({ m1 with services := dinsert m1.services sid svc2 }, [])
    else (m, [])

/-- Chunks forwarded to the session service so far. -/
def forwardedChunks (m : ConnectionManager) (sid : String) : List (String × StreamChunk) :=
  match dget m.services sid with
  | some svc => svc.forwarded
  | none => []

/-- The processed-chunk counter of the session. -/
def chunksProcessed (m : ConnectionManager) (sid : String) : Nat :=
  ((dget m.transcription_sessions sid).map (fun meta => meta.chunks_processed)).getD 0

/-! ### The Yandex SpeechKit v3 adapter (claims C7, C8) -/

/-- The settings attributes `_build_auth_metadata` reads (each may be unset
or empty, both falsy in Python). -/
structure YSettings where
  yandex_api_key : Option String
  yandex_iam_token : Option String
  yandex_folder_id : Option String
deriving DecidableEq

/-- Model of `_build_auth_metadata` (yandex_speechkit_v3_service.py lines 56-71):
prefer `Api-Key`; else `Bearer` plus `x-folder-id` when a folder id is
configured; else raise `ValueError`. -/
def build_auth_metadata (s : YSettings) : Except String (List (String × String)) :=
  if pyTruthyStr s.yandex_api_key then
    Except.ok [("authorization", "Api-Key " ++ s.yandex_api_key.getD "")]
  else if pyTruthyStr s.yandex_iam_token then
    Except.ok (("authorization", "Bearer " ++ s.yandex_iam_token.getD "") ::
      (if pyTruthyStr s.yandex_folder_id then [("x-folder-id", s.yandex_folder_id.getD "")]
        else []))
  else
    Except.error "Не настроена авторизация: требуется yandex_api_key или yandex_iam_token"

/-- Language normalization (yandex_speechkit_v3_service.py lines 110-114). -/
def normalizeLanguage (language : String) : String :=
  if language = "ru" then "ru-RU" else if language = "en" then "en-US" else language

/-- Sample-rate validation (yandex_speechkit_v3_service.py lines 116-123). -/
def validateSampleRate (rate : Nat) : Nat :=
  if rate = 8000 ∨ rate = 16000 ∨ rate = 48000 then rate else 16000

/-- The `session_options` configuration frame contents
(yandex_speechkit_v3_service.py lines 126-146). -/
structure SessionOpts where
  audio_encoding : String
  sample_rate_hertz : Nat
  audio_channel_count : Nat
  text_norm_mode : String
  profanity_filter : Bool
  literature_text : Bool
  restriction_type : String
  language_code : List String
  audio_processing_type : String
deriving DecidableEq

def mkSessionOptions (language : String) (rate : Nat) : SessionOpts :=
  { audio_encoding := "LINEAR16_PCM", sample_rate_hertz := rate, audio_channel_count := 1,
    text_norm_mode := "TEXT_NORMALIZATION_ENABLED", profanity_filter := true,
    literature_text := false, restriction_type := "WHITELIST", language_code := [language],
    audio_processing_type := "REAL_TIME" }

/-- A v3 `StreamingRequest`: the configuration frame, an audio frame, or any
other request kind of the wire format (silence chunk / end-of-utterance /
end-of-stream) — the generator never produces the latter. -/
inductive StreamingReq where
  | sessionOptions (opts : SessionOpts)
  | chunk (data : Bytes)
  | otherFrame
deriving DecidableEq

/-- Model of `request_generator` (yandex_speechkit_v3_service.py lines 156-172): one
configuration frame first, then one audio frame per chunk of the input
stream, skipping falsy (empty) chunks; nothing else. -/
def request_generator (opts : SessionOpts) (audio_stream : List Bytes) :
    List StreamingReq :=
  StreamingReq.sessionOptions opts ::
    (audio_stream.filter (fun c => !c.isEmpty)).map StreamingReq.chunk

/-- The send half of `recognize_stream` (yandex_speechkit_v3_service.py lines
73-174), with gRPC/protobuf available: build the auth metadata — on failure
yield a single authorization error record and stop before the channel is
opened — otherwise normalize the language, validate the sample rate, open the
channel and send the `request_generator` sequence. -/
structure StreamSendRun where
  pre_open_events : List EventRecord
  opened : Bool
  requests : List StreamingReq
deriving DecidableEq

def authErrorEvent (details : String) : EventRecord :=
  { rtype := "error", text := none, error := some "Authorization failed",
    details := some details, chunk_id := none, is_final := false,
    confidence := none, speaker_id := none, timestamp := none }

def recognizeStreamSend (s : YSettings) (language : String) (sample_rate : Nat)
    (audio_stream : List Bytes) : StreamSendRun :=
  match build_auth_metadata s with
  | Except.error e =>
    { pre_open_events := [authErrorEvent e], opened := false, requests := [] }
  | Except.ok _ =>
    { pre_open_events := [], opened := true,
      requests := request_generator
        (mkSessionOptions (normalizeLanguage language) (validateSampleRate sample_rate))
        audio_stream }

/-! ## Claim theorems -/

/-- Claim C1: for every sequence of N clients connecting to the same session,
none supplying an explicit channel request and none disconnecting in between,
the channels assigned by `connect` are exactly 1, …, N — no gaps, no
duplicates — regardless of connect order (the connects are interchangeable,
so the order is captured by the arbitrary list of websocket handles). -/
theorem claim1_connect_channels_one_to_N (m0 : ConnectionManager) (sid : String)
    (now : Nat) (wss : List Nat) (h : sessionFresh m0 sid) :
    ((dget (connectSeq sid now m0 wss).client_channels sid).getD []).map Prod.snd
        = chanList wss.length ∧
      (chanList wss.length).Nodup ∧
      (∀ x : Int, x ∈ chanList wss.length ↔ 1 ≤ x ∧ x ≤ (wss.length : Int)) := by
  refine ⟨?_, chanList_nodup _, fun x => mem_chanList _ x⟩
  cases wss with
  | nil => simp [connectSeq, h.2.1, chanList]
  | cons ws rest =>
    have hf := connect_fresh m0 ws sid now h
    have hone : [(mkClientId 1, (1 : Int))] = idChanPairs 1 := by
      simp [idChanPairs]
    have hinv := connectSeq_inv sid now rest (m0.connect ws sid none now).1 1
      [(mkClientId 1, ws)]
      (by rw [hf]; exact dget_dinsert_self _ _ _)
      (by simp [sessionIds])
      (by rw [hf]; rw [← hone]; exact dget_dinsert_self _ _ _)
      (by rw [hf]; simp [dget_dinsert_self])
      (by rw [hf]; simp [dget_dinsert_self])
    have hc := hinv.2.1
    simp only [connectSeq]
    rw [hc]
    simp [idChanPairs_map_snd, Nat.add_comm]

theorem claim1_witness :
    sessionFresh emptyManager "s" ∧
      (((dget (connectSeq "s" 0 emptyManager [7, 8, 9]).client_channels "s").getD []).map
            Prod.snd = chanList [7, 8, 9].length ∧
        (chanList [7, 8, 9].length).Nodup ∧
        (∀ x : Int, x ∈ chanList [7, 8, 9].length ↔ 1 ≤ x ∧ x ≤ ([7, 8, 9].length : Int))) :=
  ⟨⟨rfl, rfl, rfl, rfl⟩,
    claim1_connect_channels_one_to_N emptyManager "s" 0 [7, 8, 9] ⟨rfl, rfl, rfl, rfl⟩⟩

/-- States for the claim C2 evaluation: one client connects, maps a chunk,
disconnects (last client), and a new client connects to the same session. -/
def c2Run1 : ConnectionManager :=
  (emptyManager.connect 1 "s" none 0).1.map_chunk_channel "s" "ch1-x" 1

def c2Run2 : ConnectionManager := c2Run1.disconnect "s" (some "c1")

def c2Run3 : ConnectionManager := (c2Run2.connect 2 "s" none 0).1

/-- Claim C2 (code bug): a chunk-channel binding survives the disconnect of
the last client (`disconnect` never removes entries), but the next `connect`
to the still-live session (its metadata and result log intact) finds no
client container and reinitializes `chunk_channel_map[sid]` to empty, so
`resolve_channel_for_chunk` loses the binding — contradicting the documented
session-lifetime retention. -/
theorem claim2_chunk_map_wiped_on_reconnect :
    c2Run1.resolve_channel_for_chunk "s" "ch1-x" = some 1 ∧
      c2Run2.resolve_channel_for_chunk "s" "ch1-x" = some 1 ∧
      c2Run2.has_active_clients "s" = false ∧
      (dget c2Run2.transcription_sessions "s").isSome = true ∧
      dget c2Run3.transcription_sessions "s" = dget c2Run2.transcription_sessions "s" ∧
      dget c2Run3.session_results "s" = dget c2Run2.session_results "s" ∧
      c2Run3.resolve_channel_for_chunk "s" "ch1-x" = none := by decide

/-- Whether a trigger reaches `svc.end_session` from state `m` (a cleanup
trigger reaches it only when its connection had not already ended the session
and it removed the last client). -/
def EndTrigger.firesOn (m : ConnectionManager) (sid : String) : EndTrigger → Prop
  | .clientCleanup cid ae =>
      ae = false ∧ (m.disconnect sid (some cid)).has_active_clients sid = false
  | _ => True

theorem runTrigger_fires (m : ConnectionManager) (sid : String) (svc : StreamService)
    (t : EndTrigger) (hsvc : dget m.services sid = some svc)
    (h : t.firesOn m sid) :
    dget (runTrigger m sid t).services sid = some (svc.end_session sid).1 := by
  cases t with
  | endSessionMsg =>
    simp [runTrigger, runEndSessionMsg, hsvc, dget_dinsert_self]
  | managementCall =>
    simp [runTrigger, runEndStreamSession, hsvc, dget_dinsert_self]
  | clientCleanup cid ae =>
    obtain ⟨hae, hnc⟩ := h
    subst hae
    have hs1 : dget (m.disconnect sid (some cid)).services sid = some svc := by
      rw [show (m.disconnect sid (some cid)).services = m.services from
        disconnect_services m sid (some cid)]
      exact hsvc
    simp [runTrigger, runClientCleanup, hnc, hs1, dget_dinsert_self]

theorem runTrigger_noop (m : ConnectionManager) (sid : String) (svc' : StreamService)
    (t : EndTrigger) (hsvc : dget m.services sid = some svc')
    (hinactive : sid ∉ svc'.active_sessions) :
    dget (runTrigger m sid t).services sid = some svc' := by
  have hend : svc'.end_session sid = (svc', false) := by
    simp [StreamService.end_session, hinactive]
  cases t with
  | endSessionMsg =>
    simp [runTrigger, runEndSessionMsg, hsvc, hend, dget_dinsert_self]
  | managementCall =>
    simp [runTrigger, runEndStreamSession, hsvc, hend, dget_dinsert_self]
  | clientCleanup cid ae =>
    have hs1 : dget (m.disconnect sid (some cid)).services sid = some svc' := by
      rw [show (m.disconnect sid (some cid)).services = m.services from
        disconnect_services m sid (some cid)]
      exact hsvc
    simp only [runTrigger, runClientCleanup]
    split
    · simp [hs1, hend, dget_dinsert_self]
    · exact hs1

/-- Claim C3: triggering end-session twice for the same session — by any
combination of an `end_session` websocket message, the last-client-disconnect
cleanup, or the `end_session` management call — runs the upstream service
shutdown exactly once; the second trigger is a no-op (the service state no
longer lists the session as active, so its modelled `end_session` returns
without shutting anything down). -/
theorem claim3_end_session_shutdown_once (m : ConnectionManager) (sid : String)
    (svc : StreamService) (t1 t2 : EndTrigger)
    (hsvc : dget m.services sid = some svc)
    (hactive : sid ∈ svc.active_sessions)
    (hcount : svc.shutdown_log.count sid = 0)
    (h1 : t1.firesOn m sid) :
    shutdownCount (runTrigger m sid t1) sid = 1 ∧
      shutdownCount (runTrigger (runTrigger m sid t1) sid t2) sid = 1 := by
  have hend : svc.end_session sid =
      ({ active_sessions := svc.active_sessions.filter (fun s => s ≠ sid),
         shutdown_log := svc.shutdown_log ++ [sid], forwarded := svc.forwarded }, true) := by
    simp [StreamService.end_session, hactive]
  have hsvc1 := runTrigger_fires m sid svc t1 hsvc h1
  rw [hend] at hsvc1
  have hcount1 : ((svc.end_session sid).1).shutdown_log.count sid = 1 := by
    simp [hend, List.count_append, hcount]
  have hinactive : sid ∉ ((svc.end_session sid).1).active_sessions := by
    simp [hend, List.mem_filter]
  rw [hend] at hcount1 hinactive
  have h2 := runTrigger_noop (runTrigger m sid t1) sid _ t2 hsvc1 hinactive
  constructor
  · simp [shutdownCount, hsvc1, hcount1]
  · simp [shutdownCount, h2, hcount1]

/-- A started session for the claim C3 witness. -/
def c3Service : StreamService :=
  { active_sessions := ["s"], shutdown_log := [], forwarded := [] }

def c3Manager : ConnectionManager := { emptyManager with services := [("s", c3Service)] }

theorem claim3_witness :
    shutdownCount (runTrigger c3Manager "s" EndTrigger.endSessionMsg) "s" = 1 ∧
      shutdownCount (runTrigger (runTrigger c3Manager "s" EndTrigger.endSessionMsg) "s"
        EndTrigger.managementCall) "s" = 1 :=
  claim3_end_session_shutdown_once c3Manager "s" c3Service EndTrigger.endSessionMsg
    EndTrigger.managementCall (by decide) (by decide) (by decide) trivial

/-- Claim C4 (code bug): the error record the Yandex adapter yields on a
backend RPC failure carries no `text` key, so `result_callback` — the only
path from provider events to the connected clients — drops it: the registry
state is unchanged (no "error" status is ever set on this path) and no
message of any kind, in particular no error broadcast, is sent to any
client. -/
theorem claim4_rpc_error_never_broadcast (m : ConnectionManager)
    (sid codeName details : String) (now : Nat) :
    m.result_callback sid (grpcErrorEvent codeName details) now = (m, []) := rfl

/-- The transcript exactly as claim C5 words it: the (space-separated)
concatenation, in arrival order, of exactly the texts of the `is_final`
records. -/
def specFinalConcat (rs : List ResultRecord) : String :=
  String.intercalate " " ((rs.filter (fun r => r.is_final)).map (fun r => r.text))

/-- A result log mixing partial and final records, one final record having
empty text. -/
def c5Log : List ResultRecord :=
  [ { chunk_id := "ch1-a", timestamp := 0, text := "p", is_final := false,
      confidence := none, speaker_id := none, success := true },
    { chunk_id := "ch1-b", timestamp := 1, text := "", is_final := true,
      confidence := none, speaker_id := none, success := true },
    { chunk_id := "ch1-c", timestamp := 2, text := "a", is_final := true,
      confidence := none, speaker_id := none, success := true } ]

def c5Manager : ConnectionManager := { emptyManager with session_results := [("s", c5Log)] }

/-- Claim C5 counterexample: on a mixed partial/final log containing a final
record with empty text, the code drops that record before joining, so the
transcript differs from the concatenation of exactly the final texts. -/
theorem claim5_counterexample :
    (∃ r ∈ c5Log, r.is_final = true) ∧ (∃ r ∈ c5Log, r.is_final = false) ∧
      c5Manager.get_session_transcript_text "s" = some "a" ∧
      specFinalConcat c5Log = " a" ∧
      c5Manager.get_session_transcript_text "s" ≠ some (specFinalConcat c5Log) := by
  decide

/-- The transcript as the code builds it: final records with non-empty text. -/
def specFinalConcatNonempty (rs : List ResultRecord) : String :=
  String.intercalate " "
    ((rs.filter (fun r => r.is_final && !r.text.isEmpty)).map (fun r => r.text))

/-- Claim C5 (amended): for every session result log containing a mix of
partial and final records, the text-format transcript equals the
space-separated concatenation, in arrival order, of the texts of the
records with `is_final = true` whose text is non-empty (final records with
empty text are additionally dropped by the join). -/
theorem claim5_transcript_final_concat (m : ConnectionManager) (sid : String)
    (rs : List ResultRecord)
    (hlog : dget m.session_results sid = some rs)
    (hfin : ∃ r ∈ rs, r.is_final = true)
    (hpart : ∃ r ∈ rs, r.is_final = false) :
    m.get_session_transcript_text sid = some (specFinalConcatNonempty rs) := by
  unfold ConnectionManager.get_session_transcript_text ConnectionManager.get_session_results
  rw [hlog]
  have hne : (rs.filter (fun r => r.is_final)).isEmpty = false := by
    obtain ⟨r, hr, hf⟩ := hfin
    have : r ∈ rs.filter (fun r => r.is_final) := List.mem_filter.mpr ⟨hr, by simp [hf]⟩
    cases hl : rs.filter (fun r => r.is_final) with
    | nil => rw [hl] at this; exact absurd this (List.not_mem_nil r)
    | cons a l => simp
  simp only [Bool.false_eq_true, if_false, hne]
  unfold specFinalConcatNonempty
  congr 1
  congr 1
  rw [List.filter_filter]
  have hcomm : (fun a : ResultRecord => !a.text.isEmpty && a.is_final)
      = (fun r : ResultRecord => r.is_final && !r.text.isEmpty) := by
    funext r
    exact Bool.and_comm _ _
  rw [hcomm]

theorem claim5_witness :
    c5Manager.get_session_transcript_text "s" = some (specFinalConcatNonempty c5Log) :=
  claim5_transcript_final_concat c5Manager "s" c5Log (by decide)
    (by decide) (by decide)

theorem sessionIds_append_idWsPairs (l : List Nat) :
    ∀ k : Nat, sessionIds k ++ (idWsPairs k l).map Prod.fst = sessionIds (k + l.length) := by
  induction l with
  | nil => intro k; simp [idWsPairs]
  | cons ws rest ih =>
    intro k
    simp only [idWsPairs, List.map_cons, List.length_cons]
    rw [show sessionIds k ++ (mkClientId (k + 1) :: (idWsPairs (k + 1) rest).map Prod.fst)
        = (sessionIds k ++ [mkClientId (k + 1)]) ++ (idWsPairs (k + 1) rest).map Prod.fst by
      simp]
    rw [show sessionIds k ++ [mkClientId (k + 1)] = sessionIds (k + 1) from rfl]
    rw [ih (k + 1)]
    congr 1
    omega

theorem idWsPairs_map_fst (l : List Nat) :
    (idWsPairs 0 l).map Prod.fst = sessionIds l.length := by
  have := sessionIds_append_idWsPairs l 0
  simpa [sessionIds] using this

/-- States for the claim C6 counterexample: connect, connect, disconnect the
first client, connect again. -/
def c6Run1 : ConnectionManager × String := emptyManager.connect 10 "s" none 0

def c6Run2 : ConnectionManager × String := c6Run1.1.connect 20 "s" none 0

def c6Run3 : ConnectionManager := c6Run2.1.disconnect "s" (some "c1")

def c6Run4 : ConnectionManager × String := c6Run3.connect 30 "s" none 0

/-- Claim C6 counterexample: after connect (c1), connect (c2), disconnect of
c1, a third connect is assigned the id c2 again — the id of the still
connected second client — and overwrites that client's registration
(websocket 20 replaced by 30, channel 2 replaced by 1, still only one
registry entry). -/
theorem claim6_counterexample :
    c6Run2.2 = "c2" ∧
      dget ((dget c6Run3.active_connections "s").getD []) "c2" = some 20 ∧
      dget ((dget c6Run3.client_channels "s").getD []) "c2" = some 2 ∧
      c6Run4.2 = "c2" ∧
      dget ((dget c6Run4.1.active_connections "s").getD []) "c2" = some 30 ∧
      dget ((dget c6Run4.1.client_channels "s").getD []) "c2" = some 1 ∧
      ((dget c6Run4.1.active_connections "s").getD []).length = 1 := by decide

/-- Claim C6 (amended): within a session, client identifiers are unique and
`connect` never overwrites an existing registration as long as no disconnect
intervenes: N fresh connects return the pairwise distinct ids c1 … cN and
leave one registration per client, each keeping its own websocket.  (After a
disconnect, a later connect can reuse a live id and overwrite that
registration.) -/
theorem claim6_client_ids_unique_no_disconnect (m0 : ConnectionManager) (sid : String)
    (now : Nat) (wss : List Nat) (h : sessionFresh m0 sid) :
    connectSeqIds sid now m0 wss = sessionIds wss.length ∧
      (sessionIds wss.length).Nodup ∧
      (dget (connectSeq sid now m0 wss).active_connections sid).getD []
        = idWsPairs 0 wss := by
  cases wss with
  | nil =>
    refine ⟨by simp [connectSeqIds, sessionIds], sessionIds_nodup _, ?_⟩
    simp [connectSeq, h.1, idWsPairs]
  | cons ws rest =>
    have hf := connect_fresh m0 ws sid now h
    have hone : [(mkClientId 1, (1 : Int))] = idChanPairs 1 := by
      simp [idChanPairs]
    have hinv := connectSeq_inv sid now rest (m0.connect ws sid none now).1 1
      [(mkClientId 1, ws)]
      (by rw [hf]; exact dget_dinsert_self _ _ _)
      (by simp [sessionIds])
      (by rw [hf]; rw [← hone]; exact dget_dinsert_self _ _ _)
      (by rw [hf]; simp [dget_dinsert_self])
      (by rw [hf]; simp [dget_dinsert_self])
    refine ⟨?_, sessionIds_nodup _, ?_⟩
    · have hmap := idWsPairs_map_fst (ws :: rest)
      simp only [idWsPairs, List.map_cons, Nat.zero_add] at hmap
      simp only [connectSeqIds]
      rw [hinv.2.2.2.2, hf]
      exact hmap
    · simp only [connectSeq]
      rw [hinv.1]
      simp [idWsPairs]

theorem claim6_witness :
    sessionFresh emptyManager "s" ∧
      (connectSeqIds "s" 0 emptyManager [5, 6] = sessionIds [5, 6].length ∧
        (sessionIds [5, 6].length).Nodup ∧
        (dget (connectSeq "s" 0 emptyManager [5, 6]).active_connections "s").getD []
          = idWsPairs 0 [5, 6]) :=
  ⟨⟨rfl, rfl, rfl, rfl⟩,
    claim6_client_ids_unique_no_disconnect emptyManager "s" 0 [5, 6] ⟨rfl, rfl, rfl, rfl⟩⟩

/-- Bearer token configured, no folder id. -/
def c7Settings : YSettings :=
  { yandex_api_key := none, yandex_iam_token := some "tok", yandex_folder_id := none }

/-- Claim C7 counterexample: with a bearer token and no folder id configured,
`_build_auth_metadata` succeeds with bearer-only metadata — no folder/tenant
header is present and no error is raised, so the folder header is not
mandatory — and the stream proceeds to open the connection. -/
theorem claim7_counterexample :
    build_auth_metadata c7Settings = Except.ok [("authorization", "Bearer tok")] ∧
      (∀ p ∈ [("authorization", "Bearer tok")], p.1 ≠ "x-folder-id") ∧
      (recognizeStreamSend c7Settings "ru-RU" 16000 []).opened = true ∧
      (recognizeStreamSend c7Settings "ru-RU" 16000 []).pre_open_events = [] := by
  refine ⟨rfl, by decide, rfl, rfl⟩

/-- Claim C7 (amended): authorization metadata prefers the API key when
configured; otherwise it uses the bearer token with the folder identifier
header attached only when a folder id is configured (its absence only logs a
warning); when neither credential is configured it fails with the
authorization `ValueError`, and the stream yields a single
authorization-failure error record without opening the connection. -/
theorem claim7_auth_metadata (s : YSettings) :
    (pyTruthyStr s.yandex_api_key = true →
      build_auth_metadata s
        = Except.ok [("authorization", "Api-Key " ++ s.yandex_api_key.getD "")]) ∧
      (pyTruthyStr s.yandex_api_key = false → pyTruthyStr s.yandex_iam_token = true →
        build_auth_metadata s
          = Except.ok (("authorization", "Bearer " ++ s.yandex_iam_token.getD "") ::
              (if pyTruthyStr s.yandex_folder_id then
                [("x-folder-id", s.yandex_folder_id.getD "")]
              else []))) ∧
      (pyTruthyStr s.yandex_api_key = false → pyTruthyStr s.yandex_iam_token = false →
        ∀ (language : String) (rate : Nat) (audio_stream : List Bytes),
          recognizeStreamSend s language rate audio_stream =
            { pre_open_events := [authErrorEvent
                "Не настроена авторизация: требуется yandex_api_key или yandex_iam_token"],
              opened := false, requests := [] }) := by
  refine ⟨fun h1 => ?_, fun h1 h2 => ?_, fun h1 h2 language rate audio_stream => ?_⟩
  · simp [build_auth_metadata, h1]
  · simp [build_auth_metadata, h1, h2]
  · simp [recognizeStreamSend, build_auth_metadata, h1, h2]

def c7ApiSettings : YSettings :=
  { yandex_api_key := some "k", yandex_iam_token := some "tok", yandex_folder_id := none }

def c7EmptySettings : YSettings :=
  { yandex_api_key := none, yandex_iam_token := none, yandex_folder_id := some "f" }

theorem claim7_witness :
    build_auth_metadata c7ApiSettings = Except.ok [("authorization", "Api-Key k")] ∧
      recognizeStreamSend c7EmptySettings "ru" 44100 [[1]] =
        { pre_open_events := [authErrorEvent
            "Не настроена авторизация: требуется yandex_api_key или yandex_iam_token"],
          opened := false, requests := [] } :=
  ⟨(claim7_auth_metadata c7ApiSettings).1 rfl,
    (claim7_auth_metadata c7EmptySettings).2.2 rfl rfl "ru" 44100 [[1]]⟩

def StreamingReq.chunkData : StreamingReq → Option Bytes
  | .chunk d => some d
  | _ => none

def StreamingReq.isConfig : StreamingReq → Bool
  | .sessionOptions _ => true
  | _ => false

/-- Claim C8: for every input audio stream, the request sequence sent on the
upstream RPC is exactly one configuration frame first, followed by one audio
frame per non-empty chunk of the input in order (empty chunks skipped); no
audio precedes the configuration frame, the configuration frame is never sent
twice, and no other (end-of-stream) frame kind is ever sent. -/
theorem claim8_request_generator_shape (opts : SessionOpts) (audio_stream : List Bytes) :
    (request_generator opts audio_stream).head? = some (StreamingReq.sessionOptions opts) ∧
      ((request_generator opts audio_stream).filter (fun r => r.isConfig)).length = 1 ∧
      (request_generator opts audio_stream).filterMap StreamingReq.chunkData
          = audio_stream.filter (fun c => !c.isEmpty) ∧
      (∀ r ∈ (request_generator opts audio_stream).tail,
        ∃ d : Bytes, r = StreamingReq.chunk d ∧ d.isEmpty = false) ∧
      (∀ r ∈ request_generator opts audio_stream, r ≠ StreamingReq.otherFrame) := by
  refine ⟨rfl, ?_, ?_, ?_, ?_⟩
  · simp only [request_generator, List.filter_cons]
    have hnone : ∀ d : Bytes, (StreamingReq.chunk d).isConfig = false := fun d => rfl
    simp [List.filter_map, Function.comp, hnone, StreamingReq.isConfig]
  · simp only [request_generator, List.filterMap_cons]
    have hcomp : StreamingReq.chunkData ∘ StreamingReq.chunk = Option.some := by
      funext d
      rfl
    simp only [StreamingReq.chunkData, List.filterMap_map, hcomp, List.filterMap_some]
  · intro r hr
    simp only [request_generator, List.tail_cons, List.mem_map] at hr
    obtain ⟨d, hd, rfl⟩ := hr
    exact ⟨d, rfl, by simpa using (List.mem_filter.mp hd).2⟩
  · intro r hr
    simp only [request_generator, List.mem_cons, List.mem_map] at hr
    rcases hr with rfl | ⟨d, _, rfl⟩ <;> intro he <;> exact StreamingReq.noConfusion he

/-- A result log containing only a partial record. -/
def c9Log : List ResultRecord :=
  [{ chunk_id := "x", timestamp := 0, text := "p", is_final := false,
     confidence := none, speaker_id := none, success := true }]

def c9Manager : ConnectionManager :=
  { emptyManager with session_results := [("s", c9Log)] }

/-- Claim C9 counterexample: the transcript query returns `none` both for an
unknown session id and for an existing session whose final-only log is empty,
so it does not return a distinct not-found outcome (the results query does:
`none` versus `some []`). -/
theorem claim9_counterexample :
    dget c9Manager.session_results "s" ≠ none ∧
      c9Manager.get_session_results "s" false = some [] ∧
      c9Manager.get_session_transcript_text "s" = none ∧
      dget c9Manager.session_results "missing" = none ∧
      c9Manager.get_session_transcript_text "missing" = none := by
  decide

/-- Claim C9 (amended): `get_session_results` returns a distinct not-found
outcome (`none`) for an unknown session id, different from `some []` for a
session that exists with an empty final-only log; `get_session_transcript`,
however, returns `none` in both situations and does not distinguish them. -/
theorem claim9_results_found_vs_transcript (m : ConnectionManager) (sid sid' : String)
    (rs : List ResultRecord)
    (hfound : dget m.session_results sid = some rs)
    (hnofinal : rs.filter (fun r => r.is_final) = [])
    (hmissing : dget m.session_results sid' = none) :
    m.get_session_results sid false = some [] ∧
      m.get_session_transcript_text sid = none ∧
      m.get_session_results sid' false = none ∧
      m.get_session_transcript_text sid' = none := by
  unfold ConnectionManager.get_session_transcript_text ConnectionManager.get_session_results
  simp [hfound, hnofinal, hmissing]

theorem claim9_witness :
    c9Manager.get_session_results "s" false = some [] ∧
      c9Manager.get_session_transcript_text "s" = none ∧
      c9Manager.get_session_results "missing" false = none ∧
      c9Manager.get_session_transcript_text "missing" = none :=
  claim9_results_found_vs_transcript c9Manager "s" "missing" c9Log (by decide) (by decide)
    (by decide)

/-- Shorthand `StreamChunk` constructor for the statements below. -/
def mkChunk (chunk_id : String) (audio : Bytes) (ts : Nat) (fin : Bool) : StreamChunk :=
  { chunk_id := chunk_id, audio_data := audio, timestamp := ts, is_final := fin }

def c10Service : StreamService :=
  { active_sessions := ["s"], shutdown_log := [], forwarded := [] }

def c10Manager : ConnectionManager :=
  { emptyManager with
      transcription_sessions :=
        [("s", { created_at := 0, status := "connected", chunks_processed := 0 })],
      services := [("s", c10Service)] }

/-- An audio-chunk message whose legacy `audio_bytes` field is the empty
string (and `audio_data` is absent). -/
def c10Msg : AudioChunkMsg :=
  { audio_data := none, audio_bytes := some "", chunk_id := none, is_final := false }

/-- Claim C10 counterexample: Python `audio_data or audio_bytes` yields the
present-but-empty `audio_bytes` string, which decodes to zero bytes; the
handler forwards an empty chunk and still increments the processed-chunk
counter, so `chunks_processed` does not count only the non-empty chunks. -/
theorem claim10_counterexample :
    chunksProcessed (handleAudioChunk c10Manager "s" "c1" 1 c10Msg 0).1 "s" = 1 ∧
      forwardedChunks (handleAudioChunk c10Manager "s" "c1" 1 c10Msg 0).1 "s"
        = [("s", mkChunk "ch1-s_1" [] 0 false)] := by
  decide

/-- Claim C10 (amended): the processed-chunk counter (the `chunks_processed`
value the `session_ended` acknowledgement reports) increases by exactly one
for each audio-chunk message whose audio payload is present under Python
truthiness — every successfully forwarded non-empty chunk, but also a
present-and-empty legacy `audio_bytes` value, which is forwarded as an empty
chunk and still counted — and is not incremented for a final empty chunk
(`is_final` with no audio field) nor for a non-final message with no audio
field. -/
theorem claim10_chunk_counter (m : ConnectionManager) (sid cid : String) (ch : Int)
    (msg : AudioChunkMsg) (now : Nat) (meta : SessionMeta) (svc : StreamService)
    (hmeta : dget m.transcription_sessions sid = some meta)
    (hsvc : dget m.services sid = some svc) :
    (∀ hex audio, pyOrStr msg.audio_data msg.audio_bytes = some hex →
      bytesFromHex hex = some audio →
      chunksProcessed (handleAudioChunk m sid cid ch msg now).1 sid
          = meta.chunks_processed + 1 ∧
        ∃ chunkId : String,
          forwardedChunks (handleAudioChunk m sid cid ch msg now).1 sid
            = svc.forwarded ++ [(sid, mkChunk chunkId audio now msg.is_final)]) ∧
      (pyOrStr msg.audio_data msg.audio_bytes = none → msg.is_final = true →
        chunksProcessed (handleAudioChunk m sid cid ch msg now).1 sid
            = meta.chunks_processed ∧
          forwardedChunks (handleAudioChunk m sid cid ch msg now).1 sid
            = svc.forwarded ++ [(sid, mkChunk ("ch" ++ Int.repr ch ++ "-final_" ++ sid) [] now true)]) ∧
      (pyOrStr msg.audio_data msg.audio_bytes = none → msg.is_final = false →
        handleAudioChunk m sid cid ch msg now = (m, [])) := by
  have hsvc1 : ∀ k c, dget (m.map_chunk_channel sid k c).services sid = some svc := by
    intro k c
    exact hsvc
  have hmeta1 : ∀ k c, dget (m.map_chunk_channel sid k c).transcription_sessions sid
      = some meta := by
    intro k c
    exact hmeta
  refine ⟨fun hex audio hpy hhex => ?_, fun hpy hfin => ?_, fun hpy hfin => ?_⟩
  · simp only [handleAudioChunk, hpy, hhex, hmeta, hsvc1]
    refine ⟨?_, ?_⟩
    · simp [chunksProcessed, dget_dinsert_self]
    · simp only [forwardedChunks, dget_dinsert_self, StreamService.process_audio_chunk, mkChunk]
      exact ⟨_, rfl⟩
  · simp only [handleAudioChunk, hpy, hfin, if_true, hsvc1]
    refine ⟨?_, ?_⟩
    · simp [chunksProcessed, ConnectionManager.map_chunk_channel, hmeta]
    · simp [forwardedChunks, dget_dinsert_self, StreamService.process_audio_chunk, mkChunk]
  · simp [handleAudioChunk, hpy, hfin]

theorem claim10_witness :
    (chunksProcessed (handleAudioChunk c10Manager "s" "c1" 1
          { audio_data := some "ab", audio_bytes := none, chunk_id := none,
            is_final := false } 0).1 "s" = 1 ∧
      ∃ chunkId : String,
        forwardedChunks (handleAudioChunk c10Manager "s" "c1" 1
            { audio_data := some "ab", audio_bytes := none, chunk_id := none,
              is_final := false } 0).1 "s"
          = [("s", mkChunk chunkId [171] 0 false)]) ∧
      (chunksProcessed (handleAudioChunk c10Manager "s" "c1" 1
            { audio_data := none, audio_bytes := none, chunk_id := none,
              is_final := true } 0).1 "s" = 0 ∧
        forwardedChunks (handleAudioChunk c10Manager "s" "c1" 1
            { audio_data := none, audio_bytes := none, chunk_id := none,
              is_final := true } 0).1 "s"
          = [("s", mkChunk "ch1-final_s" [] 0 true)]) ∧
      handleAudioChunk c10Manager "s" "c1" 1
          { audio_data := none, audio_bytes := none, chunk_id := none,
            is_final := false } 0 = (c10Manager, []) :=
  ⟨(claim10_chunk_counter c10Manager "s" "c1" 1
      { audio_data := some "ab", audio_bytes := none, chunk_id := none, is_final := false }
      0 _ _ rfl rfl).1 "ab" [171] rfl rfl,
    (claim10_chunk_counter c10Manager "s" "c1" 1
      { audio_data := none, audio_bytes := none, chunk_id := none, is_final := true }
      0 _ _ rfl rfl).2.1 rfl rfl,
    (claim10_chunk_counter c10Manager "s" "c1" 1
      { audio_data := none, audio_bytes := none, chunk_id := none, is_final := false }
      0 _ _ rfl rfl).2.2 rfl rfl⟩
